import Mathlib

/-!
Verification of the SWISH pipeline orchestration engine
(src/swish_funcs.c: `run_pipelined_commands` and `run_piped_command`).

The C code is shallowly embedded as pure Lean functions. System calls
(`pipe`, `fork`, `close`, `dup2`, `wait`) and the external single-command
executor (`run_command`) are modelled through environment oracles that say,
for each call site and argument, whether the call succeeds; the embedding
then follows the source's control flow exactly. Each spawned child process
is modelled as a pure function of its own oracle bundle and of the token
sequence it inherited at fork time (fork duplicates the address space, so a
child works on its own copy of the tokens).
-/

namespace Swish

/-- Tokens are strings; the reserved separator token is "|". -/
abbrev Tok := String

def sep : Tok := "|"

/-- Modelled from the spec: `strvec_num_occurrences` from string_vector.h
(declared only; implementation not under src/). It counts how many entries of
the vector equal `s`, and does not modify the vector. The result is paired
with the vector after the call so that claims about mutation can be stated. -/
def strvec_num_occurrences (v : List Tok) (s : Tok) : Nat × List Tok :=
  ((v.filter fun t => t = s).length, v)

/-- `num_pipes` as computed at src/swish_funcs.c:77. -/
def numPipes (toks : List Tok) : Nat := (strvec_num_occurrences toks sep).1

/-- Modelled from the spec: `strvec_find_last` from string_vector.h (not under
src/): the index of the last occurrence of `s` in the vector, or none
(the C function returns -1) when `s` does not occur. -/
def strvec_find_last (v : List Tok) (s : Tok) : Option Nat :=
  match v with
  | [] => none
  | t :: rest =>
    match strvec_find_last rest s with
    | some k => some (k + 1)
    | none => if t = s then some 0 else none

/-- Modelled from the spec: `strvec_take` from string_vector.h (not under
src/): truncate the vector to its first `n` entries. -/
def strvec_take (v : List Tok) (n : Nat) : List Tok := v.take n

/-- Modelled from the spec: `strvec_slice` from string_vector.h (not under
src/): copy the half-open index range [start, stop) into a fresh vector,
failing (the C function returns -1) on out-of-range bounds. -/
def strvec_slice (v : List Tok) (start stop : Nat) : Option (List Tok) :=
  if start ≤ stop ∧ stop ≤ v.length then some ((v.drop start).take (stop - start))
  else none

/-- Endpoint designation for stage `i` of a pipeline with `num_pipes`
separators, src/swish_funcs.c:102-111: `in_idx = 2 * (i - 1)`,
`out_idx = (2 * (i + 1)) - 1`, then `in_idx` is replaced by -1 when
`i == 0`, ELSE `out_idx` is replaced by -1 when `i == num_pipes` (the
else-if structure of the source is kept as-is). -/
def stageIdx (num_pipes i : Nat) : Int × Int :=
  let in_idx : Int := 2 * ((i : Int) - 1)
  let out_idx : Int := 2 * ((i : Int) + 1) - 1
  if i = 0 then (-1, out_idx)
  else if i = num_pipes then (in_idx, -1)
  else (in_idx, out_idx)

/-- Terminal status of a spawned process as observed through `wait`:
normal exit with a code, or abnormal termination (signal). -/
inductive Status where
  | exited (code : Nat)
  | signaled
deriving DecidableEq

/-- Stage outcome classification used by the orchestrator's wait loop,
src/swish_funcs.c:245-252: succeeded means WIFEXITED and WEXITSTATUS == 0. -/
def succeededb : Status → Bool
  | .exited 0 => true
  | _ => false

/-- Oracle bundle for one spawned child context: whether each `close` of an
unneeded endpoint in its cleanup loop succeeds, whether each `dup2` from an
endpoint succeeds, whether `run_command` succeeds on a given token list, and
whether each `close` of a used endpoint inside `run_piped_command` succeeds. -/
structure ChildEnv where
  closeOk : Nat → Bool
  dup2Ok : Nat → Bool
  runCmdOk : List Tok → Bool
  launchCloseOk : Nat → Bool

/-- `run_piped_command`, src/swish_funcs.c:26-72. Redirects stdin from
`pipes[in_idx]` when `in_idx > -1` and stdout to `pipes[out_idx]` when
`out_idx > -1` (each dup2 failure returns -1), delegates to `run_command`
(failure returns -1 after best-effort closes), then closes the endpoints it
used; a failed close of a used endpoint sets the return value to 1. -/
def run_piped_command (ce : ChildEnv) (tokens : List Tok) (in_idx out_idx : Int) : Int :=
  if in_idx > -1 ∧ ce.dup2Ok in_idx.toNat = false then -1
  else if out_idx > -1 ∧ ce.dup2Ok out_idx.toNat = false then -1
  else if ce.runCmdOk tokens = false then -1
  else
    let rv : Int := if in_idx > -1 ∧ ce.launchCloseOk in_idx.toNat = false then 1 else 0
    if out_idx > -1 ∧ ce.launchCloseOk out_idx.toNat = false then 1 else rv

/-- The child's epilogue around `run_piped_command`, src/swish_funcs.c:191-226:
the child exits 1 when `run_piped_command` returned -1, and otherwise falls
through to `exit(0)` (note: a return value of 1 also reaches `exit(0)`). -/
def childLaunch (ce : ChildEnv) (tokens : List Tok) (in_idx out_idx : Int) : Status :=
  if run_piped_command ce tokens in_idx out_idx = -1 then .exited 1 else .exited 0

/-- The child's unneeded-endpoint cleanup loop, src/swish_funcs.c:127-146:
for each pipe index `j` (the loop is entered with `j = 0` and `r = num_pipes`
iterations remaining), close endpoint `2*j` unless it equals `in_idx` and
endpoint `2*j+1` unless it equals `out_idx`; a failed close makes the child
exit 1 (modelled as `none`). On success, returns the list of endpoints the
child deliberately kept open. -/
def childCleanup (closeOk : Nat → Bool) (in_idx out_idx : Int) : Nat → Nat → Option (List Nat)
  | _, 0 => some []
  | j, r + 1 =>
    if (2 * j : Int) ≠ in_idx ∧ closeOk (2 * j) = false then none
    else if (2 * j + 1 : Int) ≠ out_idx ∧ closeOk (2 * j + 1) = false then none
    else
      (childCleanup closeOk in_idx out_idx (j + 1) r).map
        (fun rest => (if (2 * j : Int) = in_idx then [2 * j] else []) ++
                     ((if (2 * j + 1 : Int) = out_idx then [2 * j + 1] else []) ++ rest))

/-- The child's trimming loop, src/swish_funcs.c:148-170: starting from
`tokenator = num_pipes`, while `tokenator > i` locate the last separator
(failure to find one makes the child exit 1, modelled as `none`), record it
as the new exclusive right bound, and truncate the tokens there. The fuel
argument is the number of remaining iterations, `num_pipes - i`. -/
def trimLoop : Nat → List Tok → Nat → Option (List Tok × Nat)
  | 0, toks, endT => some (toks, endT)
  | fuel + 1, toks, _ =>
    match strvec_find_last toks sep with
    | none => none
    | some idx => trimLoop fuel (strvec_take toks idx) idx

/-- The child's stage segmentation, src/swish_funcs.c:147-190 followed by the
choice of command tokens: after trimming, if separators remain the command is
the slice strictly after the last separator up to the recorded right bound
(slice failure makes the child exit 1, modelled as `none`); otherwise the
whole remaining vector is the command. -/
def childSegment (num_pipes i : Nat) (toks : List Tok) : Option (List Tok) :=
  match trimLoop (num_pipes - i) toks toks.length with
  | none => none
  | some (toks', endT) =>
    if (strvec_num_occurrences toks' sep).1 > 0 then
      let idx := (match strvec_find_last toks' sep with
                  | some k => k + 1
                  | none => 0)
      strvec_slice toks' idx endT
    else some toks'

/-- One spawned child context end to end, src/swish_funcs.c:125-227: close
unneeded endpoints (failure: exit 1), segment the fork-time copy of the
tokens (failure: exit 1), then run the stage; `run_piped_command` returning
-1 gives exit 1 and anything else falls through to exit 0. -/
def childRun (ce : ChildEnv) (num_pipes i : Nat) (toks : List Tok) : Status :=
  let d := stageIdx num_pipes i
  match childCleanup ce.closeOk d.1 d.2 0 num_pipes with
  | none => .exited 1
  | some _ =>
    match childSegment num_pipes i toks with
    | none => .exited 1
    | some cmd => childLaunch ce cmd d.1 d.2

/-- Result of the channel-farm construction loop: either all pipes were
created, or pipe `K` failed, with the list of endpoints the cleanup sweep
managed to close (in order) and whether that sweep ran to completion. -/
inductive FarmOutcome where
  | ok
  | fail (K : Nat) (closed : List Nat) (complete : Bool)
deriving DecidableEq

/-- The cleanup sweep of src/swish_funcs.c:87-96, linearized: endpoints are
closed in the order 2*0, 2*0+1, 2*1, 2*1+1, ..., i.e. consecutively from
index `k` for `r` endpoints; the sweep stops at the first failed close (the
source then frees and returns -1 at once). Returns the endpoints closed and
whether the sweep completed. -/
def sweepClose (closeOk : Nat → Bool) : Nat → Nat → List Nat × Bool
  | _, 0 => ([], true)
  | k, r + 1 =>
    if closeOk k then
      let p := sweepClose closeOk (k + 1) r
      (k :: p.1, p.2)
    else ([], false)

/-- The pipe-creation loop of src/swish_funcs.c:84-100: create pipes
`i, i+1, ...` while `r` remain; on the first failed `pipe` call, sweep-close
the 2*i endpoints created so far and report failure. -/
def buildFarm (pipeOk closeOk : Nat → Bool) : Nat → Nat → FarmOutcome
  | _, 0 => .ok
  | i, r + 1 =>
    if pipeOk i then buildFarm pipeOk closeOk (i + 1) r
    else .fail i (sweepClose closeOk 0 (2 * i)).1 (sweepClose closeOk 0 (2 * i)).2

/-- The order in which the fork loop of src/swish_funcs.c:102 visits stage
indices: backwards, from `num_pipes` down to 0. -/
def spawnOrder (num_pipes : Nat) : List Nat := (List.range (num_pipes + 1)).reverse

/-- Scan the fork loop's stage order for the first failing `fork`; returns
the failing stage index together with how many children had already been
spawned, or none when every fork succeeds. -/
def firstForkFail (forkOk : Nat → Bool) : List Nat → Nat → Option (Nat × Nat)
  | [], _ => none
  | i :: rest, spawned =>
    if forkOk i then firstForkFail forkOk rest (spawned + 1) else some (i, spawned)

/-- The parent's endpoint-closing sweep, src/swish_funcs.c:231-238: close
endpoints 0 .. m-1 in order; the first failing close makes the function free
the array and return -1 immediately. Returns the first failing endpoint. -/
def firstCloseFail (closeOk : Nat → Bool) (m : Nat) : Option Nat :=
  (List.range m).find? fun k => !closeOk k

/-- The orchestrator's wait loop, src/swish_funcs.c:243-253: `ret_val`
starts at 0 and is set to -1 whenever a collected status is not a normal
exit with code 0. `i` is the next child index collected, `r` the number of
children still to collect. -/
def waitLoop (st : Nat → Status) : Int → Nat → Nat → Int
  | rv, _, 0 => rv
  | rv, i, r + 1 => waitLoop st (if succeededb (st i) then rv else -1) (i + 1) r

/-- The aggregate of the wait loop over `n` collected children. -/
def waitReduce (st : Nat → Status) (n : Nat) : Int := waitLoop st 0 0 n

/-- Environment oracles for one run of `run_pipelined_commands`: success of
each `pipe` call, of each close in the pipe-failure cleanup, of each `fork`
(by stage index), of each close in the parent's sweep, and the oracle bundle
of each child. -/
structure Env where
  pipeOk : Nat → Bool
  allocCloseOk : Nat → Bool
  forkOk : Nat → Bool
  parentCloseOk : Nat → Bool
  child : Nat → ChildEnv

/-- What the orchestrator's own process does in the end: return a value to
its caller (having collected `collected` children out of `spawned` spawned),
or terminate the whole process via `exit` (the fork-failure path,
src/swish_funcs.c:114-124, exits instead of returning). -/
inductive ParentResult where
  | ret (v : Int) (collected : Nat) (spawned : Nat)
  | procExit (code : Nat) (spawned : Nat)
deriving DecidableEq

/-- Number of children spawned on the path taken. -/
def spawnedCount : ParentResult → Nat
  | .ret _ _ s => s
  | .procExit _ s => s

/-- Terminal status of child `i` (each child computes on its own oracle
bundle and on its own fork-time copy of the tokens). -/
def childStatus (env : Env) (num_pipes : Nat) (toks : List Tok) (i : Nat) : Status :=
  childRun (env.child i) num_pipes i toks

/-- `run_pipelined_commands`, src/swish_funcs.c:75-257, parent-side control
flow: count separators; build the channel farm (failure: return -1, nothing
spawned); fork one child per stage from stage `num_pipes` down to 0 (a fork
failure closes all pipes and makes the PARENT exit 1); close all endpoints
in the parent (the first failing close returns -1 at once, before waiting);
wait for all `num_pipes + 1` children and reduce their statuses; return. The
second component is the caller's token sequence as left by the call. -/
def run_pipelined_commands (env : Env) (toks : List Tok) : ParentResult × List Tok :=
  match buildFarm env.pipeOk env.allocCloseOk 0 (numPipes toks) with
  | .fail _ _ _ => (.ret (-1) 0 0, (strvec_num_occurrences toks sep).2)
  | .ok =>
    match firstForkFail env.forkOk (spawnOrder (numPipes toks)) 0 with
    | some p => (.procExit 1 p.2, (strvec_num_occurrences toks sep).2)
    | none =>
      match firstCloseFail env.parentCloseOk (2 * numPipes toks) with
      | some _ => (.ret (-1) 0 (numPipes toks + 1), (strvec_num_occurrences toks sep).2)
      | none =>
        (.ret (waitReduce (childStatus env (numPipes toks) toks) (numPipes toks + 1))
              (numPipes toks + 1) (numPipes toks + 1),
         (strvec_num_occurrences toks sep).2)

/-! Concrete environments and inputs used by witnesses and counterexamples. -/

/-- A child whose system calls all succeed and whose command runs fine. -/
def ceAllOk : ChildEnv :=
  { closeOk := fun _ => true
    dup2Ok := fun _ => true
    runCmdOk := fun _ => true
    launchCloseOk := fun _ => true }

/-- A child for which every `dup2` fails (as happens when the endpoint index
is garbage, e.g. out of range of the pipe array). -/
def ceDup2Fail : ChildEnv :=
  { closeOk := fun _ => true
    dup2Ok := fun _ => false
    runCmdOk := fun _ => true
    launchCloseOk := fun _ => true }

/-- A child whose command launcher works but for which closing a used
endpoint inside `run_piped_command` fails. -/
def ceLaunchCloseFail : ChildEnv :=
  { closeOk := fun _ => true
    dup2Ok := fun _ => true
    runCmdOk := fun _ => true
    launchCloseOk := fun _ => false }

/-- A child that behaves like a real executor: an empty command fails to
launch, anything else runs fine; all system calls succeed. -/
def ceRealExec : ChildEnv :=
  { closeOk := fun _ => true
    dup2Ok := fun _ => true
    runCmdOk := fun cmd => !cmd.isEmpty
    launchCloseOk := fun _ => true }

/-- An environment in which every system call succeeds. -/
def envAllOk : Env :=
  { pipeOk := fun _ => true
    allocCloseOk := fun _ => true
    forkOk := fun _ => true
    parentCloseOk := fun _ => true
    child := fun _ => ceAllOk }

/-- All system calls succeed, but every child's `dup2` fails. -/
def envDup2Fail : Env :=
  { envAllOk with child := fun _ => ceDup2Fail }

/-- All system calls succeed except every close in the parent's sweep. -/
def envParentCloseFail : Env :=
  { envAllOk with parentCloseOk := fun _ => false }

/-- Fork succeeds only for stage 1 (spawned first by the backwards loop);
the fork for stage 0 then fails. -/
def envForkFailAt0 : Env :=
  { envAllOk with forkOk := fun i => decide (i = 1) }

/-- All system calls succeed; children behave like a real executor. -/
def envRealExec : Env :=
  { envAllOk with child := fun _ => ceRealExec }

/-- Pipe 0 is created, pipe 1 fails, and every close in the pipe-failure
cleanup sweep fails. -/
def envPipeFailDirtyClose : Env :=
  { envAllOk with pipeOk := fun i => decide (i = 0), allocCloseOk := fun _ => false }

/-- Every `pipe` call fails. -/
def envPipeFail : Env :=
  { envAllOk with pipeOk := fun _ => false }

def toksA : List Tok := ["a"]

def toksAB : List Tok := ["a", "|", "b"]

def toksABC : List Tok := ["a", "|", "b", "|", "c"]

def toksSep : List Tok := ["|"]

/-! Helper lemmas shared by the claim theorems. -/

/-- The wait loop's aggregate is the initial value exactly when every status
collected in its range is succeeded, and -1 otherwise. -/
theorem waitLoop_spec (st : Nat → Status) :
    ∀ (r i : Nat) (rv : Int),
      waitLoop st rv i r
        = if ∀ k, k < r → succeededb (st (i + k)) = true then rv else -1 := by
  intro r
  induction r with
  | zero =>
    intro i rv
    simp [waitLoop]
  | succ r ih =>
    intro i rv
    rw [waitLoop, ih]
    by_cases hs : succeededb (st i) = true
    · simp only [hs, if_true]
      by_cases hall : ∀ k, k < r → succeededb (st (i + 1 + k)) = true
      · have hall' : ∀ k, k < r + 1 → succeededb (st (i + k)) = true := by
          intro k hk
          cases k with
          | zero => simpa using hs
          | succ k' =>
            have h := hall k' (by omega)
            have he : i + 1 + k' = i + (k' + 1) := by omega
            rwa [he] at h
        rw [if_pos hall, if_pos hall']
      · have hall' : ¬ ∀ k, k < r + 1 → succeededb (st (i + k)) = true := by
          intro hcon
          exact hall fun k hk => by
            have h := hcon (k + 1) (by omega)
            have he : i + (k + 1) = i + 1 + k := by omega
            rwa [he] at h
        rw [if_neg hall, if_neg hall']
    · simp only [hs, if_false]
      have hall' : ¬ ∀ k, k < r + 1 → succeededb (st (i + k)) = true := by
        intro hcon
        exact hs (by simpa using hcon 0 (by omega))
      rw [if_neg hall']
      split <;> rfl

/-- Every endpoint the child cleanup loop keeps open is one of the two
designated endpoints. -/
theorem childCleanup_some_mem (closeOk : Nat → Bool) (in_idx out_idx : Int) :
    ∀ (r j : Nat) (kept : List Nat),
      childCleanup closeOk in_idx out_idx j r = some kept →
      ∀ k ∈ kept, (k : Int) = in_idx ∨ (k : Int) = out_idx := by
  intro r
  induction r with
  | zero =>
    intro j kept h k hk
    rw [childCleanup] at h
    injection h with hkept
    subst hkept
    simp at hk
  | succ r ih =>
    intro j kept h k hk
    rw [childCleanup] at h
    split at h
    · exact absurd h (by simp)
    · split at h
      · exact absurd h (by simp)
      · cases hrec : childCleanup closeOk in_idx out_idx (j + 1) r with
        | none =>
          rw [hrec] at h
          exact absurd h (by simp)
        | some rest =>
          rw [hrec] at h
          simp only [Option.map_some'] at h
          injection h with hkept
          subst hkept
          rcases List.mem_append.mp hk with h1 | h12
          · by_cases c1 : (2 * j : Int) = in_idx
            · rw [if_pos c1] at h1
              simp only [List.mem_singleton] at h1
              subst h1
              exact Or.inl (by exact_mod_cast c1)
            · rw [if_neg c1] at h1
              simp at h1
          · rcases List.mem_append.mp h12 with h2 | h3
            · by_cases c2 : (2 * j + 1 : Int) = out_idx
              · rw [if_pos c2] at h2
                simp only [List.mem_singleton] at h2
                subst h2
                exact Or.inr (by exact_mod_cast c2)
              · rw [if_neg c2] at h2
                simp at h2
            · exact ih (j + 1) rest hrec k h3

/-- When every close in its range succeeds, the cleanup sweep closes the
whole consecutive range of endpoints and completes. -/
theorem sweepClose_all_ok (closeOk : Nat → Bool) :
    ∀ (r k : Nat), (∀ t, t < r → closeOk (k + t) = true) →
      sweepClose closeOk k r = (List.range' k r, true) := by
  intro r
  induction r with
  | zero =>
    intro k h
    simp [sweepClose]
  | succ r ih =>
    intro k h
    have hk : closeOk k = true := by simpa using h 0 (by omega)
    rw [sweepClose]
    simp only [hk, if_true]
    rw [ih (k + 1) (by
      intro t ht
      have h' := h (t + 1) (by omega)
      have he : k + (t + 1) = k + 1 + t := by omega
      rwa [he] at h')]
    simp [List.range']

/-- If pipes before `K` are all created and pipe `K` fails, the farm loop
reports failure at `K` with the sweep over the 2K endpoints created. -/
theorem buildFarm_fail_at (pipeOk closeOk : Nat → Bool) :
    ∀ (r i K : Nat), K < r → (∀ j, j < K → pipeOk (i + j) = true) →
      pipeOk (i + K) = false →
      buildFarm pipeOk closeOk i r
        = .fail (i + K) (sweepClose closeOk 0 (2 * (i + K))).1
                (sweepClose closeOk 0 (2 * (i + K))).2 := by
  intro r
  induction r with
  | zero =>
    intro i K hK hbef hfail
    exact absurd hK (by omega)
  | succ r ih =>
    intro i K hK hbef hfail
    rw [buildFarm]
    cases K with
    | zero =>
      have h0 : pipeOk i = false := by simpa using hfail
      simp [h0]
    | succ K' =>
      have h0 : pipeOk i = true := by simpa using hbef 0 (by omega)
      simp only [h0, if_true]
      have h := ih (i + 1) K' (by omega)
        (fun j hj => by
          have h' := hbef (j + 1) (by omega)
          have he : i + (j + 1) = i + 1 + j := by omega
          rwa [he] at h')
        (by
          have he : i + (K' + 1) = i + 1 + K' := by omega
          rwa [he] at hfail)
      have he2 : i + 1 + K' = i + (K' + 1) := by omega
      rwa [he2] at h

/-! Claim theorems. -/

/-- C1: evaluating the endpoint designation of src/swish_funcs.c:102-111 at
num_pipes = 0: because the `i == 0` branch preempts the `i == num_pipes`
branch, the single stage of a separator-free pipeline is designated write
endpoint 1 instead of none, so the stage attempts output redirection into an
endpoint that does not exist (the pipe array has 0 entries); with that dup2
failing, the no-pipe pipeline fails instead of mirroring the command. -/
theorem no_pipe_stage_designates_output_endpoint :
    stageIdx 0 0 = (-1, 1) ∧ (-1 : Int) < (stageIdx 0 0).2 ∧
    (run_pipelined_commands envDup2Fail toksA).1 = .ret (-1) 1 1 := by
  decide

/-- C2: with the channel farm built, every fork succeeding, and the parent
close sweep succeeding, run_pipelined_commands returns success (0, after
collecting all N+1 stages) exactly when every stage's status is a normal
exit with code 0. -/
theorem pipeline_success_iff_all_stages_succeed (env : Env) (toks : List Tok)
    (hFarm : buildFarm env.pipeOk env.allocCloseOk 0 (numPipes toks) = .ok)
    (hFork : firstForkFail env.forkOk (spawnOrder (numPipes toks)) 0 = none)
    (hClose : firstCloseFail env.parentCloseOk (2 * numPipes toks) = none) :
    ((run_pipelined_commands env toks).1
        = .ret 0 (numPipes toks + 1) (numPipes toks + 1))
      ↔ ∀ i, i < numPipes toks + 1 →
          succeededb (childStatus env (numPipes toks) toks i) = true := by
  have hrun : (run_pipelined_commands env toks).1
      = .ret (waitReduce (childStatus env (numPipes toks) toks) (numPipes toks + 1))
             (numPipes toks + 1) (numPipes toks + 1) := by
    unfold run_pipelined_commands
    rw [hFarm, hFork, hClose]
  rw [hrun]
  unfold waitReduce
  rw [waitLoop_spec (childStatus env (numPipes toks) toks) (numPipes toks + 1) 0 0]
  constructor
  · intro h i hi
    by_cases hall : ∀ k, k < numPipes toks + 1 →
        succeededb (childStatus env (numPipes toks) toks (0 + k)) = true
    · simpa using hall i hi
    · rw [if_neg hall] at h
      simp at h
  · intro h
    have hall : ∀ k, k < numPipes toks + 1 →
        succeededb (childStatus env (numPipes toks) toks (0 + k)) = true := by
      intro k hk
      simpa using h k hk
    rw [if_pos hall]

/-- Witness for C2 at a concrete all-succeeding single-command pipeline. -/
theorem pipeline_success_iff_all_stages_succeed_witness :
    buildFarm envAllOk.pipeOk envAllOk.allocCloseOk 0 (numPipes toksA) = .ok ∧
    firstForkFail envAllOk.forkOk (spawnOrder (numPipes toksA)) 0 = none ∧
    firstCloseFail envAllOk.parentCloseOk (2 * numPipes toksA) = none ∧
    (((run_pipelined_commands envAllOk toksA).1
        = .ret 0 (numPipes toksA + 1) (numPipes toksA + 1))
      ↔ ∀ i, i < numPipes toksA + 1 →
          succeededb (childStatus envAllOk (numPipes toksA) toksA i) = true) :=
  ⟨by decide, by decide, by decide,
   pipeline_success_iff_all_stages_succeed envAllOk toksA (by decide) (by decide) (by decide)⟩

/-- C3 counterexample: with both spawns succeeding but the first parent-side
endpoint close failing, run_pipelined_commands returns a pipeline result
(-1) having collected 0 of the 2 spawned contexts — an early return from the
parent close sweep before the wait step, src/swish_funcs.c:236. -/
theorem parent_close_failure_returns_before_wait :
    (run_pipelined_commands envParentCloseFail toksAB).1 = .ret (-1) 0 2 ∧
    (0 : Nat) < 2 := by
  decide

/-- C3 amended: when every close in the parent's endpoint sweep succeeds,
the orchestrator does not return until it has collected all N+1 spawned
contexts; when a close in that sweep fails, it returns failure at once with
zero contexts collected. -/
theorem orchestrator_collects_all_before_returning (env : Env) (toks : List Tok)
    (hFarm : buildFarm env.pipeOk env.allocCloseOk 0 (numPipes toks) = .ok)
    (hFork : firstForkFail env.forkOk (spawnOrder (numPipes toks)) 0 = none) :
    (firstCloseFail env.parentCloseOk (2 * numPipes toks) = none →
      (run_pipelined_commands env toks).1
        = .ret (waitReduce (childStatus env (numPipes toks) toks) (numPipes toks + 1))
               (numPipes toks + 1) (numPipes toks + 1)) ∧
    (∀ k, firstCloseFail env.parentCloseOk (2 * numPipes toks) = some k →
      (run_pipelined_commands env toks).1 = .ret (-1) 0 (numPipes toks + 1)) := by
  constructor
  · intro hClose
    unfold run_pipelined_commands
    rw [hFarm, hFork, hClose]
  · intro k hk
    unfold run_pipelined_commands
    rw [hFarm, hFork, hk]

/-- Witness for the amended C3 at a concrete two-stage pipeline. -/
theorem orchestrator_collects_all_before_returning_witness :
    buildFarm envAllOk.pipeOk envAllOk.allocCloseOk 0 (numPipes toksAB) = .ok ∧
    firstForkFail envAllOk.forkOk (spawnOrder (numPipes toksAB)) 0 = none ∧
    ((firstCloseFail envAllOk.parentCloseOk (2 * numPipes toksAB) = none →
      (run_pipelined_commands envAllOk toksAB).1
        = .ret (waitReduce (childStatus envAllOk (numPipes toksAB) toksAB)
                  (numPipes toksAB + 1))
               (numPipes toksAB + 1) (numPipes toksAB + 1)) ∧
    (∀ k, firstCloseFail envAllOk.parentCloseOk (2 * numPipes toksAB) = some k →
      (run_pipelined_commands envAllOk toksAB).1
        = .ret (-1) 0 (numPipes toksAB + 1))) :=
  ⟨by decide, by decide,
   orchestrator_collects_all_before_returning envAllOk toksAB (by decide) (by decide)⟩

/-- C4 counterexample: for N = 1, stage 1's designated read endpoint is
index 0 = 2*(i-1), the READ end of the previous boundary's channel, not
index 1 = 2*(i-1)+1 (the write end) as the claim states. -/
theorem stage_read_endpoint_is_read_end_not_write_end :
    stageIdx 1 1 = (2 * ((1 : Int) - 1), -1) ∧
    stageIdx 1 1 ≠ (2 * ((1 : Int) - 1) + 1, -1) := by
  decide

/-- C4 amended: for every pipeline with N ≥ 1 stages indexed 0..N, stage i's
designated read endpoint is the READ end of the previous boundary's channel,
index 2*(i-1), when i > 0 and none when i = 0; its designated write endpoint
is the write end of its own boundary's channel, index 2*i+1, when i < N and
none when i = N. -/
theorem stage_endpoint_designation (N i : Nat) (hN : 1 ≤ N) (hi : i ≤ N) :
    stageIdx N i
      = (if i = 0 then (-1 : Int) else 2 * ((i : Int) - 1),
         if i = N then (-1 : Int) else 2 * (i : Int) + 1) := by
  unfold stageIdx
  by_cases h0 : i = 0
  · subst h0
    have hne : ¬ ((0 : Nat) = N) := by omega
    simp only [if_pos rfl, if_neg hne]
    norm_num
  · by_cases hiN : i = N
    · simp only [if_neg h0, if_pos hiN]
    · simp only [if_neg h0, if_neg hiN, Prod.mk.injEq]
      exact ⟨trivial, by omega⟩

/-- Witness for the amended C4 at N = 2, i = 1. -/
theorem stage_endpoint_designation_witness :
    1 ≤ 2 ∧ 1 ≤ 2 ∧
    stageIdx 2 1
      = (if (1 : Nat) = 0 then (-1 : Int) else 2 * (((1 : Nat) : Int) - 1),
         if (1 : Nat) = 2 then (-1 : Int) else 2 * ((1 : Nat) : Int) + 1) :=
  ⟨by decide, by decide, stage_endpoint_designation 2 1 (by decide) (by decide)⟩

/-- C5: for N ≥ 1 and stage i ≤ N, if the child's endpoint-cleanup loop
completes, every endpoint it kept open is one of its two designated
endpoints (so every other inherited endpoint was closed); if the loop hits a
failed close, that child's own run terminates with exit status 1; and
changing one child's environment never changes a sibling's status. -/
theorem child_context_keeps_only_designated_endpoints (N i : Nat)
    (hN : 1 ≤ N) (hi : i ≤ N) (ce : ChildEnv) (toks : List Tok) :
    (∀ kept, childCleanup ce.closeOk (stageIdx N i).1 (stageIdx N i).2 0 N = some kept →
        ∀ k ∈ kept, (k : Int) = (stageIdx N i).1 ∨ (k : Int) = (stageIdx N i).2) ∧
    (childCleanup ce.closeOk (stageIdx N i).1 (stageIdx N i).2 0 N = none →
        childRun ce N i toks = .exited 1) ∧
    (∀ (f : Nat → ChildEnv) (j : Nat), j ≠ i →
        childRun (Function.update f i ce j) N j toks = childRun (f j) N j toks) := by
  refine ⟨fun kept h => childCleanup_some_mem ce.closeOk _ _ N 0 kept h, ?_, ?_⟩
  · intro hnone
    simp only [childRun, hnone]
  · intro f j hj
    rw [Function.update_noteq hj]

/-- Witness for C5 at N = 1, i = 0 with an all-succeeding child. -/
theorem child_context_keeps_only_designated_endpoints_witness :
    1 ≤ 1 ∧ 0 ≤ 1 ∧
    ((∀ kept, childCleanup ceAllOk.closeOk (stageIdx 1 0).1 (stageIdx 1 0).2 0 1 = some kept →
        ∀ k ∈ kept, (k : Int) = (stageIdx 1 0).1 ∨ (k : Int) = (stageIdx 1 0).2) ∧
    (childCleanup ceAllOk.closeOk (stageIdx 1 0).1 (stageIdx 1 0).2 0 1 = none →
        childRun ceAllOk 1 0 [] = .exited 1) ∧
    (∀ (f : Nat → ChildEnv) (j : Nat), j ≠ 0 →
        childRun (Function.update f 0 ceAllOk j) 1 j [] = childRun (f j) 1 j [])) :=
  ⟨by decide, by decide,
   child_context_keeps_only_designated_endpoints 1 0 (by decide) (by decide) ceAllOk []⟩

/-- C6: with stage 1 already spawned, a fork failure for stage 0 makes
run_pipelined_commands terminate the orchestrator's own process with
exit(1), src/swish_funcs.c:124 — it neither waits for the spawned context
nor returns a failure result to its caller. -/
theorem fork_failure_terminates_orchestrator_without_waiting :
    (run_pipelined_commands envForkFailAt0 toksAB).1 = .procExit 1 1 := by
  decide

/-- C7 counterexample: the malformed token sequence consisting of a single
separator (a separator at position 0 and as the last token) is not rejected
up front: 2 execution contexts are spawned, and the failure is reported only
through their exit statuses. -/
theorem malformed_tokens_still_spawn_contexts :
    (run_pipelined_commands envRealExec toksSep).1 = .ret (-1) 2 2 ∧
    spawnedCount (run_pipelined_commands envRealExec toksSep).1 ≠ 0 := by
  decide

/-- C7 amended: run_pipelined_commands performs no up-front validation of
the token sequence: whenever channel allocation and every fork succeed, it
spawns exactly (number of separators) + 1 contexts for any token sequence,
malformed or not; malformation surfaces only inside the spawned contexts. -/
theorem spawn_count_ignores_malformation (env : Env) (toks : List Tok)
    (hFarm : buildFarm env.pipeOk env.allocCloseOk 0 (numPipes toks) = .ok)
    (hFork : firstForkFail env.forkOk (spawnOrder (numPipes toks)) 0 = none) :
    spawnedCount (run_pipelined_commands env toks).1 = numPipes toks + 1 := by
  rcases hc : firstCloseFail env.parentCloseOk (2 * numPipes toks) with _ | k
  · unfold run_pipelined_commands
    rw [hFarm, hFork, hc]
    rfl
  · unfold run_pipelined_commands
    rw [hFarm, hFork, hc]
    rfl

/-- Witness for the amended C7 at the malformed single-separator sequence. -/
theorem spawn_count_ignores_malformation_witness :
    buildFarm envRealExec.pipeOk envRealExec.allocCloseOk 0 (numPipes toksSep) = .ok ∧
    firstForkFail envRealExec.forkOk (spawnOrder (numPipes toksSep)) 0 = none ∧
    spawnedCount (run_pipelined_commands envRealExec toksSep).1 = numPipes toksSep + 1 :=
  ⟨by decide, by decide,
   spawn_count_ignores_malformation envRealExec toksSep (by decide) (by decide)⟩

/-- C8 counterexample: with 2 channels required, channel 0 created, channel 1
failing, and the cleanup close of endpoint 0 failing, the cleanup sweep
aborts at once: neither endpoint 0 nor endpoint 1 of the already-created
channel 0 is in the closed list when the allocation failure is reported
(the claim requires both to be closed). No context is spawned. -/
theorem farm_cleanup_aborts_on_close_failure :
    buildFarm envPipeFailDirtyClose.pipeOk envPipeFailDirtyClose.allocCloseOk 0
        (numPipes toksABC)
      = .fail 1 [] false ∧
    (0 : Nat) ∉ ([] : List Nat) ∧ (1 : Nat) ∉ ([] : List Nat) ∧
    (run_pipelined_commands envPipeFailDirtyClose toksABC).1 = .ret (-1) 0 0 := by
  decide

/-- C8 amended: if creating the K-th channel fails and every close in the
cleanup sweep succeeds, then all 2K endpoints of the previously created
channels 0..K-1 are closed (the sweep completes) before the allocation
failure is reported, and no execution context is spawned; if a cleanup close
fails, the sweep aborts early, but failure is still reported with no context
spawned. -/
theorem farm_failure_closes_created_channels (env : Env) (toks : List Tok) (K : Nat)
    (hK : K < numPipes toks)
    (hbef : ∀ j, j < K → env.pipeOk j = true)
    (hfail : env.pipeOk K = false)
    (hclose : ∀ k, k < 2 * K → env.allocCloseOk k = true) :
    buildFarm env.pipeOk env.allocCloseOk 0 (numPipes toks)
        = .fail K (List.range' 0 (2 * K)) true ∧
    (run_pipelined_commands env toks).1 = .ret (-1) 0 0 := by
  have hbef' : ∀ j, j < K → env.pipeOk (0 + j) = true := by
    intro j hj
    simpa using hbef j hj
  have hfail' : env.pipeOk (0 + K) = false := by simpa using hfail
  have hfarm := buildFarm_fail_at env.pipeOk env.allocCloseOk (numPipes toks) 0 K hK
    hbef' hfail'
  have hsweep := sweepClose_all_ok env.allocCloseOk (2 * (0 + K)) 0 (by
    intro t ht
    have ht' : t < 2 * K := by omega
    simpa using hclose t ht')
  rw [hsweep] at hfarm
  simp only [Nat.zero_add] at hfarm
  refine ⟨hfarm, ?_⟩
  unfold run_pipelined_commands
  rw [hfarm]

/-- Witness for the amended C8: the very first channel fails, zero channels
precede it, and the (empty) sweep completes. -/
theorem farm_failure_closes_created_channels_witness :
    0 < numPipes toksAB ∧
    (∀ j, j < 0 → envPipeFail.pipeOk j = true) ∧
    envPipeFail.pipeOk 0 = false ∧
    (∀ k, k < 2 * 0 → envPipeFail.allocCloseOk k = true) ∧
    (buildFarm envPipeFail.pipeOk envPipeFail.allocCloseOk 0 (numPipes toksAB)
        = .fail 0 (List.range' 0 (2 * 0)) true ∧
     (run_pipelined_commands envPipeFail toksAB).1 = .ret (-1) 0 0) :=
  ⟨by decide,
   fun j hj => absurd hj (Nat.not_lt_zero j),
   by decide,
   fun k hk => absurd hk (Nat.not_lt_zero k),
   farm_failure_closes_created_channels envPipeFail toksAB 0 (by decide)
     (fun j hj => absurd hj (Nat.not_lt_zero j)) (by decide)
     (fun k hk => absurd hk (Nat.not_lt_zero k))⟩

/-- C9: with the external executor reporting success, a failed close of the
stage's designated (used) write endpoint makes run_piped_command return 1,
src/swish_funcs.c:68; the child's epilogue only treats -1 as failure and
falls through to exit(0), src/swish_funcs.c:191,226, so the stage is
classified as succeeded, not failed as the claim states. -/
theorem used_endpoint_close_failure_classified_success :
    run_piped_command ceLaunchCloseFail ["a"] (-1) 1 = 1 ∧
    childLaunch ceLaunchCloseFail ["a"] (-1) 1 = .exited 0 ∧
    childRun ceLaunchCloseFail 1 0 toksAB = .exited 0 ∧
    succeededb (.exited 0) = true := by
  decide

/-- C10: on every parent-side path, run_pipelined_commands leaves the
caller's token sequence exactly as it was: the parent only counts separator
occurrences, and each child's truncation/slicing acts on that child's own
fork-time copy of the sequence. -/
theorem parent_does_not_mutate_caller_tokens (env : Env) (toks : List Tok) :
    (run_pipelined_commands env toks).2 = toks := by
  unfold run_pipelined_commands
  cases hf : buildFarm env.pipeOk env.allocCloseOk 0 (numPipes toks) with
  | fail K closed complete => rfl
  | ok =>
    cases hk : firstForkFail env.forkOk (spawnOrder (numPipes toks)) 0 with
    | some p => rfl
    | none =>
      cases hc : firstCloseFail env.parentCloseOk (2 * numPipes toks) with
      | some k => rfl
      | none => rfl

end Swish
